import Mathlib

/-!
Shallow embedding of the responsive-privacy core engine
(packages/core/src: types.ts, defaults.ts, config.ts, transformer.ts, and
the Astro template helper shouldShow), with theorems checking the
natural-language specification against it.

JavaScript records (Record of string keys to values) are modelled as
association lists in insertion order; object lookup is List.lookup.
JavaScript `undefined` is modelled by Option.none.  The truthiness test
`!attributeId` on a string-or-undefined is false exactly for undefined
and the empty string, and is embedded as such.  console.warn output is
modelled as an explicit list of strings returned alongside the result.
-/

namespace ResponsivePrivacy

/-- Attribute categories from types.ts (AttributeCategory). -/
inductive AttributeCategory where
  | identity
  | contact
  | organizational
  | activity
deriving DecidableEq

/-- Risk levels from types.ts (RiskLevel). -/
inductive RiskLevel where
  | veryHigh
  | high
  | medium
  | low
deriving DecidableEq

/-- Redaction strategies from types.ts (RedactionStrategy): either remove
the field entirely or substitute a replacement value. -/
inductive RedactionStrategy where
  | omitStrat
  | replaceStrat
deriving DecidableEq

/-- A content field value (TypeScript `unknown`).  Replacement values are
strings; original values may be strings or arbitrary other data. -/
inductive Value where
  | str : String → Value
  | nat : Nat → Value
deriving DecidableEq

/-- AttributeDefinition from types.ts.  Optional fields are Options;
`redaction` defaults to omit and `complianceProtected` to false at use
sites, mirroring the TypeScript defaults. -/
structure AttributeDefinition where
  name : String
  category : AttributeCategory
  risk : RiskLevel
  threshold : Nat
  redaction : Option RedactionStrategy := none
  redactedValue : Option String := none
  complianceProtected : Option Bool := none
deriving DecidableEq

/-- CollectionConfig from types.ts: field name to attribute id mapping. -/
structure CollectionConfig where
  fields : List (String × String)
deriving DecidableEq

/-- PrivacyLevelDefinition from types.ts. -/
structure PrivacyLevelDefinition where
  level : Nat
  name : String
  description : String
deriving DecidableEq

/-- ResponsivePrivacyConfig from types.ts: user-supplied configuration,
with optional levels and attribute overrides. -/
structure ResponsivePrivacyConfig where
  levels : Option (List PrivacyLevelDefinition) := none
  attributes : Option (List (String × AttributeDefinition)) := none
  collections : List (String × CollectionConfig)
deriving DecidableEq

/-- Required ResponsivePrivacyConfig: everything populated (the output of
resolveConfig). -/
structure ResolvedConfig where
  levels : List PrivacyLevelDefinition
  attributes : List (String × AttributeDefinition)
  collections : List (String × CollectionConfig)
deriving DecidableEq

/-- PrivacyContext from types.ts. -/
structure PrivacyContext where
  currentLevel : Nat
  config : ResolvedConfig
deriving DecidableEq

/-- FieldResult from types.ts. `value` is Option Value because the omitted
case records `undefined`. -/
structure FieldResult where
  field : String
  attributeId : String
  visible : Bool
  value : Option Value
  redactionApplied : Option RedactionStrategy := none
deriving DecidableEq

/-- TransformResult from types.ts. -/
structure TransformResult where
  data : List (String × Value)
  fields : List FieldResult
  hiddenFields : List String
  warnings : List String
deriving DecidableEq

/-- DEFAULT_PRIVACY_LEVELS from defaults.ts. -/
def DEFAULT_PRIVACY_LEVELS : List PrivacyLevelDefinition :=
  [ { level := 0, name := "Complete Anonymity",
      description := "Active threat, immediate danger. No attributes visible." }
  , { level := 1, name := "Role-Only Visibility",
      description := "Elevated threat environment. Only generic role and department visible." }
  , { level := 2, name := "Professional Identity",
      description := "Moderate threat, maintaining credibility. Name, role, and project attribution visible." }
  , { level := 3, name := "Public Professional",
      description := "Standard operations with security awareness. Full professional profile without direct contact." }
  , { level := 4, name := "Full Transparency",
      description := "No perceived threat, maximum accessibility. All attributes visible." } ]

/-- DEFAULT_ATTRIBUTES from defaults.ts: the shipped 20-entry catalog. -/
def DEFAULT_ATTRIBUTES : List (String × AttributeDefinition) :=
  [ ("ID-01", { name := "Full Name", category := .identity, risk := .high,
                threshold := 2, redaction := some .replaceStrat,
                redactedValue := some "Staff Member" })
  , ("ID-02", { name := "Photo/Headshot", category := .identity, risk := .high,
                threshold := 2, redaction := some .omitStrat })
  , ("ID-03", { name := "Job Title/Role", category := .identity, risk := .medium,
                threshold := 1 })
  , ("ID-04", { name := "Biography/Background", category := .identity, risk := .medium,
                threshold := 3, redaction := some .omitStrat })
  , ("ID-05", { name := "Professional Credentials", category := .identity, risk := .low,
                threshold := 3 })
  , ("CV-01", { name := "Email Address", category := .contact, risk := .veryHigh,
                threshold := 4, redaction := some .replaceStrat,
                redactedValue := some "Contact the organization" })
  , ("CV-02", { name := "Phone Number", category := .contact, risk := .veryHigh,
                threshold := 4, redaction := some .omitStrat })
  , ("CV-03", { name := "Office Location/Address", category := .contact, risk := .veryHigh,
                threshold := 4, redaction := some .omitStrat })
  , ("CV-04", { name := "Social Media Links", category := .contact, risk := .medium,
                threshold := 3, redaction := some .omitStrat })
  , ("CV-05", { name := "Messaging Handles", category := .contact, risk := .high,
                threshold := 4, redaction := some .omitStrat })
  , ("OR-01", { name := "Department/Team", category := .organizational, risk := .low,
                threshold := 1 })
  , ("OR-02", { name := "Board Membership", category := .organizational, risk := .medium,
                threshold := 3, complianceProtected := some true })
  , ("OR-03", { name := "Partner Organizations", category := .organizational, risk := .medium,
                threshold := 3 })
  , ("OR-04", { name := "Project Associations", category := .organizational, risk := .low,
                threshold := 2 })
  , ("OR-05", { name := "Advisory/Volunteer Status", category := .organizational, risk := .low,
                threshold := 3 })
  , ("AD-01", { name := "Work Schedule/Availability", category := .activity, risk := .high,
                threshold := 4, redaction := some .omitStrat })
  , ("AD-02", { name := "Event Participation", category := .activity, risk := .medium,
                threshold := 3, redaction := some .omitStrat })
  , ("AD-03", { name := "Publication Dates", category := .activity, risk := .low,
                threshold := 2 })
  , ("AD-04", { name := "Project Timelines", category := .activity, risk := .medium,
                threshold := 3 })
  , ("AD-05", { name := "Bylines/Authorship", category := .activity, risk := .medium,
                threshold := 2, redaction := some .replaceStrat,
                redactedValue := some "Organization Staff" }) ]

/-- JavaScript object spread over two keyed records: keys of `a` in order
with values overridden by `b` where shared, then the new keys of `b`. -/
def spreadMerge (a b : List (String × AttributeDefinition)) :
    List (String × AttributeDefinition) :=
  (a.map (fun p => match b.lookup p.1 with
    | some v => (p.1, v)
    | none => p)) ++ b.filter (fun p => (a.lookup p.1).isNone)

/-- resolveConfig from config.ts: user config merged over the defaults. -/
def resolveConfig (config : ResponsivePrivacyConfig) : ResolvedConfig :=
  { levels := config.levels.getD DEFAULT_PRIVACY_LEVELS
  , attributes := spreadMerge DEFAULT_ATTRIBUTES (config.attributes.getD [])
  , collections := config.collections }

/-- createContext from config.ts, on the path where an explicit level is
supplied (the Astro helpers always pass one, falling back to
readPrivacyLevel themselves). -/
def createContext (config : ResponsivePrivacyConfig) (level : Nat) :
    PrivacyContext :=
  { currentLevel := level, config := resolveConfig config }

/-- JavaScript whitespace accepted by parseInt before the number:
ECMAScript StrWhiteSpaceChar, that is WhiteSpace (TAB, VT, FF, SP, NBSP,
ZWNBSP and every Unicode Space_Separator code point: U+1680,
U+2000..U+200A, U+202F, U+205F, U+3000) together with the line
terminators LF, CR, LS and PS. -/
def isJsSpace (c : Char) : Bool :=
  c = ' ' || c = '\t' || c = '\n' || c = '\r' ||
  c = Char.ofNat 11 || c = Char.ofNat 12 || c = Char.ofNat 160 ||
  c = Char.ofNat 5760 ||
  (8192 ≤ c.toNat && c.toNat ≤ 8202) ||
  c = Char.ofNat 8239 || c = Char.ofNat 8287 || c = Char.ofNat 12288 ||
  c = Char.ofNat 65279 || c = Char.ofNat 8232 || c = Char.ofNat 8233

/-- Value of a maximal leading run of decimal digits; none when there is
no digit (parseInt yields NaN there). -/
def digitsValue (l : List Char) : Option Nat :=
  let ds := l.takeWhile Char.isDigit
  if ds.isEmpty then none
  else some (ds.foldl (fun acc c => acc * 10 + (c.toNat - 48)) 0)

/-- JavaScript parseInt(s, 10): skip leading whitespace, optional sign,
then a maximal run of decimal digits; none models NaN. -/
def parseIntTen (s : String) : Option Int :=
  let cs := s.toList.dropWhile isJsSpace
  match cs with
  | '-' :: rest => (digitsValue rest).map (fun n => -(n : Int))
  | '+' :: rest => (digitsValue rest).map (fun n => (n : Int))
  | _ => (digitsValue cs).map (fun n => (n : Int))

/-- readPrivacyLevel from config.ts.  `envVal` models
process.env.PRIVACY_LEVEL (none when the variable is unset); the fallback
parameter defaults to 4. -/
def readPrivacyLevel (envVal : Option String) (fallback : Nat := 4) : Nat :=
  match envVal with
  | none => fallback
  | some v =>
    if v = "" then fallback
    else
      match parseIntTen v with
      | none => fallback
      | some parsed =>
        if parsed < 0 ∨ 4 < parsed then fallback else parsed.toNat

/-- Whether readPrivacyLevel emits its console.warn message for this
environment value. -/
def readPrivacyLevelWarns (envVal : Option String) : Bool :=
  match envVal with
  | none => false
  | some v =>
    if v = "" then false
    else
      match parseIntTen v with
      | none => true
      | some parsed => decide (parsed < 0) || decide (4 < parsed)

/-- isAttributeVisible from transformer.ts. -/
def isAttributeVisible (attributeId : String) (currentLevel : Nat)
    (attributes : List (String × AttributeDefinition)) : Bool :=
  match attributes.lookup attributeId with
  | none => true
  | some attr => decide (attr.threshold ≤ currentLevel)

/-- getRedactedValue from transformer.ts: none models the undefined
returned for the omit strategy. -/
def getRedactedValue (attr : AttributeDefinition) : Option Value :=
  match attr.redaction.getD .omitStrat with
  | .omitStrat => none
  | .replaceStrat =>
    some (Value.str (attr.redactedValue.getD ("[" ++ attr.name ++ " hidden]")))

/-- The compliance warning string pushed by applyPrivacy when hiding a
compliance-protected attribute. -/
def complianceWarning (attr : AttributeDefinition) (attributeId : String)
    (currentLevel : Nat) : String :=
  "Compliance-protected attribute \"" ++ attr.name ++ "\" (" ++ attributeId ++
  ") would be hidden at Level " ++ toString currentLevel ++ " (threshold: " ++
  toString attr.threshold ++ "). Requires legal review before removal."

/-- The console.warn message emitted by applyPrivacy for a field mapped to
an attribute id that is missing from the catalog. -/
def unresolvedWarning (field attributeId : String) : String :=
  "[responsive-privacy] Field \"" ++ field ++ "\" mapped to unknown attribute \"" ++
  attributeId ++ "\". Passing through."

/-- Everything one iteration of the applyPrivacy loop contributes for one
field: the filtered-record entry if any, the FieldResult, whether the
field name is pushed onto hiddenFields, the warning pushed if any, and
the console.warn message if any. -/
structure FieldOutcome where
  dataEntry : Option Value
  fieldResult : FieldResult
  hid : Bool
  warning : Option String
  consoleMsg : Option String
deriving DecidableEq

/-- One iteration of the applyPrivacy loop from transformer.ts.  The
`!attributeId` truthiness test is false exactly for a missing mapping or
the empty string, hence the two pass-through cases. -/
def processField (collectionConfig : CollectionConfig) (ctx : PrivacyContext)
    (field : String) (value : Value) : FieldOutcome :=
  match collectionConfig.fields.lookup field with
  | none =>
    { dataEntry := some value
    , fieldResult := { field := field, attributeId := "", visible := true,
                       value := some value }
    , hid := false, warning := none, consoleMsg := none }
  | some attributeId =>
    if attributeId = "" then
      { dataEntry := some value
      , fieldResult := { field := field, attributeId := "", visible := true,
                         value := some value }
      , hid := false, warning := none, consoleMsg := none }
    else
      match ctx.config.attributes.lookup attributeId with
      | none =>
        { dataEntry := some value
        , fieldResult := { field := field, attributeId := attributeId,
                           visible := true, value := some value }
        , hid := false, warning := none
        , consoleMsg := some (unresolvedWarning field attributeId) }
      | some attr =>
        if attr.threshold ≤ ctx.currentLevel then
          { dataEntry := some value
          , fieldResult := { field := field, attributeId := attributeId,
                             visible := true, value := some value }
          , hid := false, warning := none, consoleMsg := none }
        else
          if attr.redaction.getD .omitStrat = .replaceStrat ∧
              (getRedactedValue attr).isSome then
            { dataEntry := getRedactedValue attr
            , fieldResult := { field := field, attributeId := attributeId,
                               visible := false, value := getRedactedValue attr,
                               redactionApplied := some .replaceStrat }
            , hid := true
            , warning := if attr.complianceProtected.getD false then
                some (complianceWarning attr attributeId ctx.currentLevel)
              else none
            , consoleMsg := none }
          else
            { dataEntry := none
            , fieldResult := { field := field, attributeId := attributeId,
                               visible := false, value := none,
                               redactionApplied := some .omitStrat }
            , hid := true
            , warning := if attr.complianceProtected.getD false then
                some (complianceWarning attr attributeId ctx.currentLevel)
              else none
            , consoleMsg := none }

/-- applyPrivacy from transformer.ts: the loop accumulators expressed as
order-preserving traversals of the record. -/
def applyPrivacy (data : List (String × Value))
    (collectionConfig : CollectionConfig) (ctx : PrivacyContext) :
    TransformResult :=
  { data := data.filterMap (fun p =>
      ((processField collectionConfig ctx p.1 p.2).dataEntry).map
        (fun w => (p.1, w)))
  , fields := data.map (fun p =>
      (processField collectionConfig ctx p.1 p.2).fieldResult)
  , hiddenFields := (data.filter (fun p =>
      (processField collectionConfig ctx p.1 p.2).hid)).map Prod.fst
  , warnings := data.filterMap (fun p =>
      (processField collectionConfig ctx p.1 p.2).warning) }

/-- The console.warn messages emitted while applyPrivacy runs, in order. -/
def applyPrivacyConsole (data : List (String × Value))
    (collectionConfig : CollectionConfig) (ctx : PrivacyContext) :
    List String :=
  data.filterMap (fun p =>
    (processField collectionConfig ctx p.1 p.2).consoleMsg)

/-- transformEntry from transformer.ts.  For an unconfigured collection
the record passes through: the spread copy of the data, one visible
FieldResult per key with an empty attribute id. -/
def transformEntry (collectionName : String) (data : List (String × Value))
    (ctx : PrivacyContext) : TransformResult :=
  match ctx.config.collections.lookup collectionName with
  | none =>
    { data := data
    , fields := (data.map Prod.fst).map (fun field =>
        { field := field, attributeId := "", visible := true,
          value := data.lookup field })
    , hiddenFields := []
    , warnings := [] }
  | some collectionConfig => applyPrivacy data collectionConfig ctx

/-- The console.warn messages emitted by a transformEntry call. -/
def transformEntryConsole (collectionName : String)
    (data : List (String × Value)) (ctx : PrivacyContext) : List String :=
  match ctx.config.collections.lookup collectionName with
  | none => []
  | some collectionConfig => applyPrivacyConsole data collectionConfig ctx

/-- shouldShow from the Astro template helpers, on the explicit-level
path: builds the context from the same config and level and replays the
visibility lookups of the transformer. -/
def shouldShow (collectionName fieldName : String)
    (config : ResponsivePrivacyConfig) (level : Nat) : Bool :=
  let ctx := createContext config level
  match ctx.config.collections.lookup collectionName with
  | none => true
  | some collection =>
    match collection.fields.lookup fieldName with
    | none => true
    | some attributeId =>
      if attributeId = "" then true
      else
        match ctx.config.attributes.lookup attributeId with
        | none => true
        | some attr => decide (attr.threshold ≤ ctx.currentLevel)

/-- Sample configuration mapping one field to the replace-redacted
attribute ID-01 (Full Name). -/
def sampleNameConfig : ResponsivePrivacyConfig :=
  { collections := [("team", { fields := [("name", "ID-01")] })] }

/-- Context for sampleNameConfig at level 0 (everything mapped hidden). -/
def sampleNameCtx : PrivacyContext := createContext sampleNameConfig 0

/-- Sample configuration mapping one field to an id absent from the
default catalog. -/
def sampleUnknownConfig : ResponsivePrivacyConfig :=
  { collections := [("team", { fields := [("name", "XX-99")] })] }

/-- Context for sampleUnknownConfig at level 0. -/
def sampleUnknownCtx : PrivacyContext := createContext sampleUnknownConfig 0

/-- The field mapping of the governance sample collection. -/
def sampleGovCC : CollectionConfig := { fields := [("boardRole", "OR-02")] }

/-- Sample configuration mapping a field to the compliance-protected
attribute OR-02 (Board Membership). -/
def sampleGovConfig : ResponsivePrivacyConfig :=
  { collections := [("governance", sampleGovCC)] }

/-- Context for sampleGovConfig at level 1, below the OR-02 threshold 3. -/
def sampleGovCtx : PrivacyContext := createContext sampleGovConfig 1

/-- The default-catalog definition of ID-01 (Full Name). -/
def nameAttr : AttributeDefinition :=
  { name := "Full Name", category := .identity, risk := .high,
    threshold := 2, redaction := some .replaceStrat,
    redactedValue := some "Staff Member" }

/-- The default-catalog definition of OR-02 (Board Membership). -/
def boardAttr : AttributeDefinition :=
  { name := "Board Membership", category := .organizational, risk := .medium,
    threshold := 3, complianceProtected := some true }

/-- Sample configuration mapping a field to the empty attribute id. -/
def sampleEmptyMapConfig : ResponsivePrivacyConfig :=
  { collections := [("team", { fields := [("alias", "")] })] }

/-- Context for sampleEmptyMapConfig at level 0. -/
def sampleEmptyMapCtx : PrivacyContext := createContext sampleEmptyMapConfig 0

/-- Sample configuration mapping one field to CV-01 (Email Address). -/
def sampleEmailConfig : ResponsivePrivacyConfig :=
  { collections := [("team", { fields := [("email", "CV-01")] })] }

/-- A one-entry catalog used to instantiate catalog-generic theorems. -/
def sampleCatalogAttr : AttributeDefinition :=
  { name := "Sample", category := .identity, risk := .low, threshold := 2 }

/-- The catalog holding only sampleCatalogAttr under id SA-01. -/
def sampleCatalog : List (String × AttributeDefinition) :=
  [("SA-01", sampleCatalogAttr)]

/-- A record entry whose field maps (through a nonempty id) to a
compliance-protected attribute of the resolved catalog that is hidden at
the context level: exactly the condition under which applyPrivacy pushes
a warning. -/
def isComplianceHiddenField (collectionConfig : CollectionConfig)
    (ctx : PrivacyContext) (p : String × Value) : Bool :=
  match collectionConfig.fields.lookup p.1 with
  | none => false
  | some attributeId =>
    if attributeId = "" then false
    else
      match ctx.config.attributes.lookup attributeId with
      | none => false
      | some attr =>
        attr.complianceProtected.getD false &&
          decide (ctx.currentLevel < attr.threshold)

section Lemmas

variable (cc : CollectionConfig) (ctx : PrivacyContext)

/-- A redaction option whose omit-default resolves to replace is an
explicit replace. -/
theorem redaction_of_getD_replace (attr : AttributeDefinition)
    (h : attr.redaction.getD .omitStrat = .replaceStrat) :
    attr.redaction = some RedactionStrategy.replaceStrat := by
  cases hred : attr.redaction with
  | none => rw [hred] at h; simp at h
  | some s =>
    cases s with
    | omitStrat => rw [hred] at h; simp at h
    | replaceStrat => rfl

/-- Every loop iteration records the field name it processed. -/
theorem processField_fieldName (f : String) (v : Value) :
    (processField cc ctx f v).fieldResult.field = f := by
  unfold processField
  cases hm : cc.fields.lookup f with
  | none => rfl
  | some attributeId =>
    by_cases he : attributeId = ""
    · simp [he]
    · cases ha : ctx.config.attributes.lookup attributeId with
      | none => simp [he, ha]
      | some attr =>
        by_cases hv : attr.threshold ≤ ctx.currentLevel
        · simp [he, ha, hv]
        · by_cases hr : attr.redaction.getD .omitStrat = .replaceStrat ∧
              (getRedactedValue attr).isSome
          · simp [he, ha, hv, hr]
          · simp [he, ha, hv, hr]

/-- Every loop iteration either keeps an entry in the filtered record or
pushes the field name onto hiddenFields (possibly both). -/
theorem processField_total (f : String) (v : Value) :
    ((processField cc ctx f v).dataEntry).isSome = true ∨
      (processField cc ctx f v).hid = true := by
  unfold processField
  cases hm : cc.fields.lookup f with
  | none => left; rfl
  | some attributeId =>
    by_cases he : attributeId = ""
    · simp [he]
    · cases ha : ctx.config.attributes.lookup attributeId with
      | none => simp [he, ha]
      | some attr =>
        by_cases hv : attr.threshold ≤ ctx.currentLevel
        · simp [he, ha, hv]
        · by_cases hr : attr.redaction.getD .omitStrat = .replaceStrat ∧
              (getRedactedValue attr).isSome
          · simp [he, ha, hv, hr]
          · simp [he, ha, hv, hr]

/-- An iteration that both keeps an entry and hides the field can only be
the hidden-with-replacement branch. -/
theorem processField_both (f : String) (v : Value)
    (h1 : ((processField cc ctx f v).dataEntry).isSome = true)
    (h2 : (processField cc ctx f v).hid = true) :
    ∃ attributeId attr, cc.fields.lookup f = some attributeId ∧
      attributeId ≠ "" ∧
      ctx.config.attributes.lookup attributeId = some attr ∧
      attr.redaction = some RedactionStrategy.replaceStrat ∧
      ctx.currentLevel < attr.threshold := by
  revert h1 h2
  unfold processField
  cases hm : cc.fields.lookup f with
  | none => intro _ h2; simp at h2
  | some attributeId =>
    by_cases he : attributeId = ""
    · simp [he]
    · cases ha : ctx.config.attributes.lookup attributeId with
      | none => simp [he, ha]
      | some attr =>
        by_cases hv : attr.threshold ≤ ctx.currentLevel
        · simp [he, ha, hv]
        · by_cases hr : attr.redaction.getD .omitStrat = .replaceStrat ∧
              (getRedactedValue attr).isSome
          · intro _ _
            exact ⟨attributeId, attr, rfl, he, ha,
              redaction_of_getD_replace attr hr.1, Nat.lt_of_not_le hv⟩
          · simp [he, ha, hv, hr]

/-- A loop iteration pushes a warning exactly for a compliance-hidden
field. -/
theorem processField_warning_isSome (f : String) (v : Value) :
    ((processField cc ctx f v).warning).isSome =
      isComplianceHiddenField cc ctx (f, v) := by
  unfold processField isComplianceHiddenField
  cases hm : cc.fields.lookup f with
  | none => rfl
  | some attributeId =>
    by_cases he : attributeId = ""
    · simp [he]
    · cases ha : ctx.config.attributes.lookup attributeId with
      | none => simp [he, ha]
      | some attr =>
        by_cases hv : attr.threshold ≤ ctx.currentLevel
        · simp [he, ha, hv, Nat.not_lt_of_le hv]
        · by_cases hr : attr.redaction.getD .omitStrat = .replaceStrat ∧
              (getRedactedValue attr).isSome
          · by_cases hc : attr.complianceProtected.getD false
            · simp [he, ha, hv, hr, hc, Nat.lt_of_not_le hv]
            · simp [he, ha, hv, hr, hc]
          · by_cases hc : attr.complianceProtected.getD false
            · simp [he, ha, hv, hr, hc, Nat.lt_of_not_le hv]
            · simp [he, ha, hv, hr, hc]

/-- The length of a filterMap is the count of elements it keeps. -/
theorem length_filterMap_eq_countP {α β : Type} (g : α → Option β)
    (l : List α) :
    (l.filterMap g).length = l.countP (fun a => (g a).isSome) := by
  induction l with
  | nil => rfl
  | cons a t ih =>
    cases h : g a with
    | none => simp [List.filterMap_cons, h, List.countP_cons, ih]
    | some b => simp [List.filterMap_cons, h, List.countP_cons, ih]

/-- Keys of the filtered record produced by applyPrivacy: exactly the
input entries whose iteration kept a data entry. -/
theorem mem_applyPrivacy_dataKeys (data : List (String × Value))
    (k : String) :
    k ∈ (applyPrivacy data cc ctx).data.map Prod.fst ↔
      ∃ v, (k, v) ∈ data ∧
        ((processField cc ctx k v).dataEntry).isSome = true := by
  simp only [applyPrivacy, List.mem_map, List.mem_filterMap]
  constructor
  · rintro ⟨q, ⟨p, hp, hq⟩, rfl⟩
    rcases Option.map_eq_some'.1 hq with ⟨w, hw, rfl⟩
    exact ⟨p.2, by simpa using hp, by simp [hw]⟩
  · rintro ⟨v, hv, hs⟩
    rcases Option.isSome_iff_exists.1 hs with ⟨w, hw⟩
    exact ⟨(k, w), ⟨(k, v), hv, by simp [hw]⟩, rfl⟩

/-- Membership in hiddenFields produced by applyPrivacy: exactly the
input entries whose iteration hid the field. -/
theorem mem_applyPrivacy_hiddenFields (data : List (String × Value))
    (k : String) :
    k ∈ (applyPrivacy data cc ctx).hiddenFields ↔
      ∃ v, (k, v) ∈ data ∧ (processField cc ctx k v).hid = true := by
  simp only [applyPrivacy, List.mem_map, List.mem_filter]
  constructor
  · rintro ⟨p, ⟨hp, hh⟩, rfl⟩
    exact ⟨p.2, by simpa using hp, hh⟩
  · rintro ⟨v, hv, hh⟩
    exact ⟨(k, v), ⟨hv, hh⟩, rfl⟩

/-- Membership in the warnings produced by applyPrivacy. -/
theorem mem_applyPrivacy_warnings (data : List (String × Value))
    (w : String) :
    w ∈ (applyPrivacy data cc ctx).warnings ↔
      ∃ p, p ∈ data ∧ (processField cc ctx p.1 p.2).warning = some w := by
  simp only [applyPrivacy, List.mem_filterMap]

/-- In a record with no duplicate keys, a key determines its value. -/
theorem keys_nodup_values_eq (data : List (String × Value))
    (h : (data.map Prod.fst).Nodup) {k : String} {v1 v2 : Value}
    (h1 : (k, v1) ∈ data) (h2 : (k, v2) ∈ data) : v1 = v2 := by
  induction data with
  | nil => cases h1
  | cons a t ih =>
    simp only [List.map_cons, List.nodup_cons] at h
    rcases List.mem_cons.1 h1 with ha1 | ht1
    · rcases List.mem_cons.1 h2 with ha2 | ht2
      · have : (k, v1).2 = (k, v2).2 := by rw [ha1, ha2]
        exact this
      · have hk : k ∈ t.map Prod.fst := List.mem_map.2 ⟨(k, v2), ht2, rfl⟩
        have hfst : a.1 = k := by rw [← ha1]
        exact absurd hk (hfst ▸ h.1)
    · rcases List.mem_cons.1 h2 with ha2 | ht2
      · have hk : k ∈ t.map Prod.fst := List.mem_map.2 ⟨(k, v1), ht1, rfl⟩
        have hfst : a.1 = k := by rw [← ha2]
        exact absurd hk (hfst ▸ h.1)
      · exact ih h.2 ht1 ht2

/-- The loop iteration for a field whose attribute resolves, is hidden at
the current level, and carries the replace strategy: the substituted
value is kept in the filtered record and the field is hidden. -/
theorem processField_replace_hidden (f : String) (v : Value)
    (attributeId : String) (attr : AttributeDefinition)
    (hm : cc.fields.lookup f = some attributeId) (he : attributeId ≠ "")
    (ha : ctx.config.attributes.lookup attributeId = some attr)
    (hred : attr.redaction = some RedactionStrategy.replaceStrat)
    (hlt : ctx.currentLevel < attr.threshold) :
    processField cc ctx f v =
      { dataEntry := getRedactedValue attr
      , fieldResult := { field := f, attributeId := attributeId,
                         visible := false, value := getRedactedValue attr,
                         redactionApplied := some .replaceStrat }
      , hid := true
      , warning := if attr.complianceProtected.getD false then
          some (complianceWarning attr attributeId ctx.currentLevel)
        else none
      , consoleMsg := none } := by
  have hnle : ¬(attr.threshold ≤ ctx.currentLevel) := Nat.not_le.2 hlt
  have hrs : attr.redaction.getD .omitStrat = .replaceStrat := by
    rw [hred]
    rfl
  have hsome : (getRedactedValue attr).isSome = true := by
    simp [getRedactedValue, hrs]
  unfold processField
  simp [hm, he, ha, hnle, hrs, hsome]

/-- The substitute a replace-strategy attribute resolves to. -/
theorem getRedactedValue_replace (attr : AttributeDefinition)
    (hred : attr.redaction = some RedactionStrategy.replaceStrat) :
    getRedactedValue attr = some (Value.str
      (attr.redactedValue.getD ("[" ++ attr.name ++ " hidden]"))) := by
  simp [getRedactedValue, hred]

/-- The warnings list of an applyPrivacy result has exactly one entry per
compliance-hidden field of the record. -/
theorem applyPrivacy_warnings_length (data : List (String × Value)) :
    (applyPrivacy data cc ctx).warnings.length =
      data.countP (isComplianceHiddenField cc ctx) := by
  simp only [applyPrivacy]
  rw [length_filterMap_eq_countP]
  induction data with
  | nil => rfl
  | cons a t ih =>
    simp [List.countP_cons, ih, processField_warning_isSome]

end Lemmas

/-- The per-field visibility computed inside applyPrivacy coincides with
the template helper shouldShow evaluated on the same config and level. -/
theorem processField_visible_shouldShow (config : ResponsivePrivacyConfig)
    (level : Nat) (collectionName f : String) (v : Value)
    (cc : CollectionConfig)
    (h : (resolveConfig config).collections.lookup collectionName = some cc) :
    (processField cc (createContext config level) f v).fieldResult.visible =
      shouldShow collectionName f config level := by
  unfold processField shouldShow createContext
  simp only [h]
  cases hm : cc.fields.lookup f with
  | none => rfl
  | some attributeId =>
    by_cases he : attributeId = ""
    · simp [he]
    · cases ha : (resolveConfig config).attributes.lookup attributeId with
      | none => simp [he, ha]
      | some attr =>
        by_cases hv : attr.threshold ≤ level
        · simp [he, ha, hv]
        · by_cases hr : attr.redaction.getD .omitStrat = .replaceStrat ∧
              (getRedactedValue attr).isSome
          · simp [he, ha, hv, hr]
          · simp [he, ha, hv, hr]

/-- C3: isAttributeVisible is a total function with no error cases: for
every attribute id, level and catalog, an id absent from the catalog is
visible at every level (including 0), and a present id is visible exactly
when the level is at least its threshold. -/
theorem C3_isAttributeVisible_total (attributeId : String)
    (catalog : List (String × AttributeDefinition)) :
    (catalog.lookup attributeId = none →
      ∀ level : Nat, isAttributeVisible attributeId level catalog = true) ∧
    (∀ attr, catalog.lookup attributeId = some attr →
      ∀ level : Nat,
        (isAttributeVisible attributeId level catalog = true ↔
          attr.threshold ≤ level)) := by
  constructor
  · intro h level
    simp [isAttributeVisible, h]
  · intro attr h level
    simp [isAttributeVisible, h]

/-- Witness for C3 on the shipped catalog and on sampleCatalog. -/
theorem C3_witness :
    isAttributeVisible "XX-99" 0 DEFAULT_ATTRIBUTES = true ∧
    (isAttributeVisible "SA-01" 3 sampleCatalog = true ↔ (2 : Nat) ≤ 3) :=
  ⟨(C3_isAttributeVisible_total "XX-99" DEFAULT_ATTRIBUTES).1 (by decide) 0,
   (C3_isAttributeVisible_total "SA-01" sampleCatalog).2 sampleCatalogAttr
     (by decide) 3⟩

/-- C4: visibility is monotonic in the disclosure level: for every catalog
and attribute id (known or unknown) and levels L1 < L2 in the 0..4 range,
visibility at L1 implies visibility at L2. -/
theorem C4_visibility_monotone
    (catalog : List (String × AttributeDefinition)) (attributeId : String)
    (L1 L2 : Nat) (h1 : L1 < L2) (h2 : L2 ≤ 4)
    (hv : isAttributeVisible attributeId L1 catalog = true) :
    isAttributeVisible attributeId L2 catalog = true := by
  unfold isAttributeVisible at hv ⊢
  cases h : catalog.lookup attributeId with
  | none => simp
  | some attr =>
    simp only [h, decide_eq_true_eq] at hv ⊢
    exact Nat.le_trans hv (Nat.le_of_lt h1)

/-- Witness for C4: ID-01 visible at 2, hence at 3. -/
theorem C4_witness : isAttributeVisible "ID-01" 3 DEFAULT_ATTRIBUTES = true :=
  C4_visibility_monotone DEFAULT_ATTRIBUTES "ID-01" 2 3 (by decide) (by decide)
    (by decide)

/-- C5: getRedactedValue is a total function of the attribute alone (its
signature takes no level): an unspecified strategy behaves as omit
(returns the omit signal none), and replace returns the configured
replacement text, else the generated default string. -/
theorem C5_getRedactedValue_spec (attr : AttributeDefinition) :
    (attr.redaction = none → getRedactedValue attr = none) ∧
    (attr.redaction = some RedactionStrategy.omitStrat →
      getRedactedValue attr = none) ∧
    (∀ v, attr.redaction = some RedactionStrategy.replaceStrat →
      attr.redactedValue = some v →
      getRedactedValue attr = some (Value.str v)) ∧
    (attr.redaction = some RedactionStrategy.replaceStrat →
      attr.redactedValue = none →
      getRedactedValue attr =
        some (Value.str ("[" ++ attr.name ++ " hidden]"))) := by
  refine ⟨?_, ?_, ?_, ?_⟩
  · intro h
    simp [getRedactedValue, h]
  · intro h
    simp [getRedactedValue, h]
  · intro v h hv
    simp [getRedactedValue, h, hv]
  · intro h hv
    simp [getRedactedValue, h, hv]

/-- Witness for C5 on three concrete attribute definitions. -/
theorem C5_witness :
    getRedactedValue ({ name := "Photo/Headshot", category := .identity,
                        risk := .high, threshold := 2,
                        redaction := some .omitStrat } :
        AttributeDefinition) = none ∧
    getRedactedValue ({ name := "Email Address", category := .contact,
                        risk := .veryHigh, threshold := 4,
                        redaction := some .replaceStrat,
                        redactedValue := some "Contact the organization" } :
        AttributeDefinition) =
      some (Value.str "Contact the organization") ∧
    getRedactedValue ({ name := "Phone Number", category := .contact,
                        risk := .veryHigh, threshold := 4,
                        redaction := some .replaceStrat } :
        AttributeDefinition) =
      some (Value.str "[Phone Number hidden]") :=
  ⟨(C5_getRedactedValue_spec _).2.1 rfl,
   (C5_getRedactedValue_spec _).2.2.1 "Contact the organization" rfl rfl,
   (C5_getRedactedValue_spec _).2.2.2 rfl rfl⟩

/-- C6 counterexample: the empty string parses to NaN (so it is a
non-numeric input string), and readPrivacyLevel returns the fallback for
it without logging a warning — against the claim that every non-numeric
input string produces a logged warning. -/
theorem C6_counterexample :
    parseIntTen "" = none ∧
    readPrivacyLevel (some "") 2 = 2 ∧
    readPrivacyLevelWarns (some "") = false := by
  refine ⟨by decide, by decide, by decide⟩

/-- C6 (amended): readPrivacyLevel parses the external string as an
integer; a string that fails to parse or denotes a value outside 0..4
yields the caller-supplied fallback with a logged warning — except the
empty string, which is treated like an unset variable and yields the
fallback without a warning; a string parsing into 0..4 is returned as-is;
with a fallback in range the result is always in 0..4. -/
theorem C6_readPrivacyLevel_spec (v : String) (fallback : Nat)
    (hf : fallback ≤ 4) :
    readPrivacyLevel none fallback = fallback ∧
    readPrivacyLevelWarns none = false ∧
    (v = "" → readPrivacyLevel (some v) fallback = fallback ∧
      readPrivacyLevelWarns (some v) = false) ∧
    (v ≠ "" → parseIntTen v = none →
      readPrivacyLevel (some v) fallback = fallback ∧
      readPrivacyLevelWarns (some v) = true) ∧
    (∀ p : Int, v ≠ "" → parseIntTen v = some p → (p < 0 ∨ 4 < p) →
      readPrivacyLevel (some v) fallback = fallback ∧
      readPrivacyLevelWarns (some v) = true) ∧
    (∀ p : Int, v ≠ "" → parseIntTen v = some p → 0 ≤ p → p ≤ 4 →
      readPrivacyLevel (some v) fallback = p.toNat) ∧
    readPrivacyLevel (some v) fallback ≤ 4 := by
  refine ⟨rfl, rfl, ?_, ?_, ?_, ?_, ?_⟩
  · intro hv
    constructor <;> simp [readPrivacyLevel, readPrivacyLevelWarns, hv]
  · intro hv hp
    constructor <;> simp [readPrivacyLevel, readPrivacyLevelWarns, hv, hp]
  · intro p hv hp hrange
    constructor
    · simp [readPrivacyLevel, hv, hp, hrange]
    · simp [readPrivacyLevelWarns, hv, hp]
      omega
  · intro p hv hp h0 h4
    have hcond : ¬(p < 0 ∨ 4 < p) := by omega
    simp [readPrivacyLevel, hv, hp, hcond]
  · by_cases hv : v = ""
    · simp [readPrivacyLevel, hv]
      exact hf
    · cases hp : parseIntTen v with
      | none =>
        simp [readPrivacyLevel, hv, hp]
        exact hf
      | some p =>
        by_cases hr : p < 0 ∨ 4 < p
        · simp [readPrivacyLevel, hv, hp, hr]
          exact hf
        · simp [readPrivacyLevel, hv, hp, hr]
          omega

/-- Witness for C6 (amended) at concrete environment strings. -/
theorem C6_witness :
    readPrivacyLevel (some "abc") 2 = 2 ∧
    readPrivacyLevelWarns (some "abc") = true ∧
    readPrivacyLevel (some "7") 2 = 2 ∧
    readPrivacyLevel (some "3") 2 = 3 ∧
    readPrivacyLevel none 2 = 2 :=
  ⟨((C6_readPrivacyLevel_spec "abc" 2 (by decide)).2.2.2.1 (by decide)
      (by decide)).1,
   ((C6_readPrivacyLevel_spec "abc" 2 (by decide)).2.2.2.1 (by decide)
      (by decide)).2,
   ((C6_readPrivacyLevel_spec "7" 2 (by decide)).2.2.2.2.1 7 (by decide)
      (by decide) (by decide)).1,
   (C6_readPrivacyLevel_spec "3" 2 (by decide)).2.2.2.2.2.1 3 (by decide)
      (by decide) (by decide) (by decide),
   (C6_readPrivacyLevel_spec "x" 2 (by decide)).1⟩

/-- C7: for a collection name with no configuration in the context, at
every level, transformEntry returns the record unchanged, every field is
marked visible with an empty attribute id, hiddenFieldNames is empty
and there are no warnings (and nothing is logged). -/
theorem C7_unconfigured_passthrough (collectionName : String)
    (data : List (String × Value)) (ctx : PrivacyContext)
    (h : ctx.config.collections.lookup collectionName = none) :
    (transformEntry collectionName data ctx).data = data ∧
    (transformEntry collectionName data ctx).hiddenFields = [] ∧
    (transformEntry collectionName data ctx).warnings = [] ∧
    (transformEntry collectionName data ctx).fields.map FieldResult.field =
      data.map Prod.fst ∧
    (∀ fr ∈ (transformEntry collectionName data ctx).fields,
      fr.visible = true ∧ fr.attributeId = "") ∧
    transformEntryConsole collectionName data ctx = [] := by
  refine ⟨?_, ?_, ?_, ?_, ?_, ?_⟩
  · simp [transformEntry, h]
  · simp [transformEntry, h]
  · simp [transformEntry, h]
  · simp [transformEntry, h, List.map_map, Function.comp]
  · intro fr hfr
    simp only [transformEntry, h, List.mem_map] at hfr
    rcases hfr with ⟨f, _, rfl⟩
    exact ⟨rfl, rfl⟩
  · simp [transformEntryConsole, h]

/-- Witness for C7: an unconfigured collection at level 0. -/
theorem C7_witness :
    (transformEntry "projects" [("a", Value.nat 1)] sampleNameCtx).data =
      [("a", Value.nat 1)] ∧
    (transformEntry "projects" [("a", Value.nat 1)] sampleNameCtx).hiddenFields
      = [] :=
  ⟨(C7_unconfigured_passthrough "projects" [("a", Value.nat 1)] sampleNameCtx
      (by decide)).1,
   (C7_unconfigured_passthrough "projects" [("a", Value.nat 1)] sampleNameCtx
      (by decide)).2.1⟩

/-- C10: a field whose mapping entry is the empty string is treated like
an unmapped field: it passes through unchanged with visible true and an
empty recorded attribute id, is never hidden at any level, and its
iteration logs no unresolved-attribute message. -/
theorem C10_empty_mapping_passthrough (collectionName : String)
    (data : List (String × Value)) (ctx : PrivacyContext)
    (cc : CollectionConfig) (f : String) (v : Value)
    (h1 : ctx.config.collections.lookup collectionName = some cc)
    (h2 : cc.fields.lookup f = some "")
    (hp : (f, v) ∈ data) :
    (f, v) ∈ (transformEntry collectionName data ctx).data ∧
    (∀ fr ∈ (transformEntry collectionName data ctx).fields,
      fr.field = f → fr.visible = true ∧ fr.attributeId = "") ∧
    f ∉ (transformEntry collectionName data ctx).hiddenFields ∧
    (∀ p ∈ data, p.1 = f →
      (processField cc ctx p.1 p.2).consoleMsg = none) := by
  have ht : transformEntry collectionName data ctx = applyPrivacy data cc ctx := by
    simp [transformEntry, h1]
  have hpf : ∀ w : Value, processField cc ctx f w =
      { dataEntry := some w
      , fieldResult := { field := f, attributeId := "", visible := true,
                         value := some w, redactionApplied := none }
      , hid := false, warning := none, consoleMsg := none } := by
    intro w
    unfold processField
    simp [h2]
  rw [ht]
  refine ⟨?_, ?_, ?_, ?_⟩
  · simp only [applyPrivacy, List.mem_filterMap]
    exact ⟨(f, v), hp, by simp [hpf]⟩
  · intro fr hfr hname
    simp only [applyPrivacy, List.mem_map] at hfr
    rcases hfr with ⟨p, _, rfl⟩
    have hf1 : p.1 = f := by
      rw [← hname, processField_fieldName]
    rw [hf1, hpf]
    exact ⟨rfl, rfl⟩
  · intro hmem
    rcases (mem_applyPrivacy_hiddenFields cc ctx data f).1 hmem with ⟨w, _, hh⟩
    rw [hpf] at hh
    cases hh
  · intro p _ hf1
    rw [hf1, hpf]

/-- Witness for C10: a field mapped to the empty string passes through. -/
theorem C10_witness :
    ("alias", Value.str "x") ∈
      (transformEntry "team" [("alias", Value.str "x")] sampleEmptyMapCtx).data :=
  (C10_empty_mapping_passthrough "team" [("alias", Value.str "x")]
    sampleEmptyMapCtx { fields := [("alias", "")] } "alias" (Value.str "x")
    (by decide) (by decide) (by decide)).1

/-- C9: the template helper shouldShow agrees with the transformer: under
the context created from the same config and level, every FieldResult the
transformer produces for a given field name carries visible equal to
shouldShow for that collection and field, and a record containing the
field does produce such a FieldResult. -/
theorem C9_shouldShow_agrees_transformer (config : ResponsivePrivacyConfig)
    (level : Nat) (collectionName fieldName : String)
    (data : List (String × Value)) :
    (∀ fr ∈ (transformEntry collectionName data
        (createContext config level)).fields,
      fr.field = fieldName →
        fr.visible = shouldShow collectionName fieldName config level) ∧
    (∀ v, (fieldName, v) ∈ data →
      ∃ fr, fr ∈ (transformEntry collectionName data
        (createContext config level)).fields ∧ fr.field = fieldName) := by
  cases hc : (resolveConfig config).collections.lookup collectionName with
  | none =>
    constructor
    · intro fr hfr _
      simp only [transformEntry, createContext, hc, List.mem_map] at hfr
      rcases hfr with ⟨f, _, rfl⟩
      simp [shouldShow, createContext, hc]
    · intro v hv
      refine ⟨{ field := fieldName, attributeId := "", visible := true,
                value := data.lookup fieldName, redactionApplied := none },
        ?_, rfl⟩
      simp only [transformEntry, createContext, hc, List.mem_map,
        List.map_map]
      exact ⟨(fieldName, v), hv, rfl⟩
  | some cc =>
    constructor
    · intro fr hfr hname
      simp only [transformEntry, createContext, hc, applyPrivacy,
        List.mem_map] at hfr
      rcases hfr with ⟨p, _, rfl⟩
      have hf1 : p.1 = fieldName := by
        rw [← hname, processField_fieldName]
      rw [hf1]
      exact processField_visible_shouldShow config level collectionName
        fieldName p.2 cc hc
    · intro v hv
      refine ⟨(processField cc (createContext config level) fieldName
        v).fieldResult, ?_, processField_fieldName cc
          (createContext config level) fieldName v⟩
      simp only [transformEntry, createContext, hc, applyPrivacy,
        List.mem_map]
      exact ⟨(fieldName, v), hv, rfl⟩

/-- Witness for C9: the email field of the sample collection at level 1,
whose FieldResult is the replace-redacted one and whose shouldShow is
false. -/
theorem C9_witness :
    ({ field := "email", attributeId := "CV-01", visible := false,
       value := some (Value.str "Contact the organization"),
       redactionApplied := some .replaceStrat } : FieldResult).visible =
      shouldShow "team" "email" sampleEmailConfig 1 :=
  (C9_shouldShow_agrees_transformer sampleEmailConfig 1 "team" "email"
    [("email", Value.str "jane@example.org")]).1
    { field := "email", attributeId := "CV-01", visible := false,
      value := some (Value.str "Contact the organization"),
      redactionApplied := some .replaceStrat }
    (by decide) rfl

/-- C8: a field mapped to a compliance-protected attribute hidden at the
current level contributes the warning naming the attribute, its id, the
level and the threshold, and the field is hidden regardless; the warnings
list has exactly one entry per such field. -/
theorem C8_compliance_warning (collectionName : String)
    (data : List (String × Value)) (ctx : PrivacyContext)
    (cc : CollectionConfig)
    (h1 : ctx.config.collections.lookup collectionName = some cc) :
    (transformEntry collectionName data ctx).warnings.length =
      data.countP (isComplianceHiddenField cc ctx) ∧
    (∀ p ∈ data, ∀ attributeId attr,
      cc.fields.lookup p.1 = some attributeId → attributeId ≠ "" →
      ctx.config.attributes.lookup attributeId = some attr →
      attr.complianceProtected.getD false = true →
      ctx.currentLevel < attr.threshold →
      complianceWarning attr attributeId ctx.currentLevel ∈
        (transformEntry collectionName data ctx).warnings ∧
      p.1 ∈ (transformEntry collectionName data ctx).hiddenFields) := by
  have ht : transformEntry collectionName data ctx = applyPrivacy data cc ctx := by
    simp [transformEntry, h1]
  rw [ht]
  refine ⟨applyPrivacy_warnings_length cc ctx data, ?_⟩
  intro p hp attributeId attr hm he ha hcomp hlt
  have hnle : ¬(attr.threshold ≤ ctx.currentLevel) := Nat.not_le.2 hlt
  have hw : (processField cc ctx p.1 p.2).warning =
      some (complianceWarning attr attributeId ctx.currentLevel) := by
    unfold processField
    by_cases hr : attr.redaction.getD .omitStrat = .replaceStrat ∧
        (getRedactedValue attr).isSome
    · simp [hm, he, ha, hnle, hcomp, hr]
    · simp [hm, he, ha, hnle, hcomp, hr]
  have hh : (processField cc ctx p.1 p.2).hid = true := by
    unfold processField
    by_cases hr : attr.redaction.getD .omitStrat = .replaceStrat ∧
        (getRedactedValue attr).isSome
    · simp [hm, he, ha, hnle, hr]
    · simp [hm, he, ha, hnle, hr]
  constructor
  · exact (mem_applyPrivacy_warnings cc ctx data _).2 ⟨p, hp, hw⟩
  · exact (mem_applyPrivacy_hiddenFields cc ctx data p.1).2
      ⟨p.2, by simpa using hp, hh⟩

/-- Witness for C8: the governance sample at level 1 produces exactly one
warning (for the compliance-protected Board Membership attribute) and
hides the field. -/
theorem C8_witness :
    (transformEntry "governance" [("boardRole", Value.str "Chair")]
      sampleGovCtx).warnings.length = 1 ∧
    complianceWarning boardAttr "OR-02" 1 ∈
      (transformEntry "governance" [("boardRole", Value.str "Chair")]
        sampleGovCtx).warnings ∧
    "boardRole" ∈ (transformEntry "governance"
      [("boardRole", Value.str "Chair")] sampleGovCtx).hiddenFields :=
  ⟨(C8_compliance_warning "governance" [("boardRole", Value.str "Chair")]
      sampleGovCtx sampleGovCC (by decide)).1,
   ((C8_compliance_warning "governance" [("boardRole", Value.str "Chair")]
      sampleGovCtx sampleGovCC (by decide)).2 ("boardRole", Value.str "Chair")
      (by decide) "OR-02" boardAttr (by decide) (by decide) (by decide)
      (by decide) (by decide)).1,
   ((C8_compliance_warning "governance" [("boardRole", Value.str "Chair")]
      sampleGovCtx sampleGovCC (by decide)).2 ("boardRole", Value.str "Chair")
      (by decide) "OR-02" boardAttr (by decide) (by decide) (by decide)
      (by decide) (by decide)).2⟩

/-- C1 counterexample: at level 0 a field mapped to the replace-redacted
attribute ID-01 appears both as a key of the filtered record (with the
substituted value) and in hiddenFieldNames, so the claimed disjointness
fails. -/
theorem C1_counterexample :
    "name" ∈ (transformEntry "team" [("name", Value.str "Jane Smith")]
      sampleNameCtx).data.map Prod.fst ∧
    "name" ∈ (transformEntry "team" [("name", Value.str "Jane Smith")]
      sampleNameCtx).hiddenFields := by
  constructor
  · decide
  · decide

/-- C1 (amended): for every configured collection and record with
distinct keys, the keys of the filtered record together with
hiddenFieldNames are exactly the input keys, and fieldResults has exactly
one entry per input field in order; a field name occurs in both exactly
when the field is hidden under the replace strategy, and such a field
stays present in the filtered record with the substituted value while
also being recorded in hiddenFieldNames (so the two sets need not be
disjoint). -/
theorem C1_coverage (collectionName : String)
    (data : List (String × Value)) (ctx : PrivacyContext)
    (cc : CollectionConfig)
    (h1 : ctx.config.collections.lookup collectionName = some cc)
    (h2 : (data.map Prod.fst).Nodup) :
    (∀ k, (k ∈ (transformEntry collectionName data ctx).data.map Prod.fst ∨
        k ∈ (transformEntry collectionName data ctx).hiddenFields) ↔
      k ∈ data.map Prod.fst) ∧
    (transformEntry collectionName data ctx).fields.map FieldResult.field =
      data.map Prod.fst ∧
    (∀ p ∈ data,
      (p.1 ∈ (transformEntry collectionName data ctx).data.map Prod.fst ∧
        p.1 ∈ (transformEntry collectionName data ctx).hiddenFields) ↔
      ∃ attributeId attr, cc.fields.lookup p.1 = some attributeId ∧
        attributeId ≠ "" ∧
        ctx.config.attributes.lookup attributeId = some attr ∧
        attr.redaction = some RedactionStrategy.replaceStrat ∧
        ctx.currentLevel < attr.threshold) ∧
    (∀ p ∈ data, ∀ attributeId attr,
      cc.fields.lookup p.1 = some attributeId → attributeId ≠ "" →
      ctx.config.attributes.lookup attributeId = some attr →
      attr.redaction = some RedactionStrategy.replaceStrat →
      ctx.currentLevel < attr.threshold →
      (p.1, Value.str (attr.redactedValue.getD
          ("[" ++ attr.name ++ " hidden]")))
        ∈ (transformEntry collectionName data ctx).data ∧
      p.1 ∈ (transformEntry collectionName data ctx).hiddenFields) := by
  have ht : transformEntry collectionName data ctx = applyPrivacy data cc ctx := by
    simp [transformEntry, h1]
  rw [ht]
  refine ⟨?_, ?_, ?_, ?_⟩
  · intro k
    constructor
    · rintro (hk | hk)
      · rcases (mem_applyPrivacy_dataKeys cc ctx data k).1 hk with ⟨v, hv, _⟩
        exact List.mem_map.2 ⟨(k, v), hv, rfl⟩
      · rcases (mem_applyPrivacy_hiddenFields cc ctx data k).1 hk with
          ⟨v, hv, _⟩
        exact List.mem_map.2 ⟨(k, v), hv, rfl⟩
    · intro hk
      rcases List.mem_map.1 hk with ⟨p, hp, rfl⟩
      rcases processField_total cc ctx p.1 p.2 with hS | hH
      · exact Or.inl ((mem_applyPrivacy_dataKeys cc ctx data p.1).2
          ⟨p.2, by simpa using hp, hS⟩)
      · exact Or.inr ((mem_applyPrivacy_hiddenFields cc ctx data p.1).2
          ⟨p.2, by simpa using hp, hH⟩)
  · simp [applyPrivacy, List.map_map, Function.comp, processField_fieldName]
  · intro p hp
    constructor
    · rintro ⟨hd, hh⟩
      rcases (mem_applyPrivacy_dataKeys cc ctx data p.1).1 hd with
        ⟨v1, hv1, hS⟩
      rcases (mem_applyPrivacy_hiddenFields cc ctx data p.1).1 hh with
        ⟨v2, hv2, hH⟩
      have e1 : v1 = p.2 := keys_nodup_values_eq data h2 hv1 (by simpa using hp)
      have e2 : v2 = p.2 := keys_nodup_values_eq data h2 hv2 (by simpa using hp)
      exact processField_both cc ctx p.1 p.2 (e1 ▸ hS) (e2 ▸ hH)
    · rintro ⟨attributeId, attr, hm, he, ha, hred, hlt⟩
      have hpf := processField_replace_hidden cc ctx p.1 p.2 attributeId attr
        hm he ha hred hlt
      have hsome : ((processField cc ctx p.1 p.2).dataEntry).isSome = true := by
        rw [hpf]
        simp [getRedactedValue_replace attr hred]
      constructor
      · exact (mem_applyPrivacy_dataKeys cc ctx data p.1).2
          ⟨p.2, by simpa using hp, hsome⟩
      · exact (mem_applyPrivacy_hiddenFields cc ctx data p.1).2
          ⟨p.2, by simpa using hp, by rw [hpf]⟩
  · intro p hp attributeId attr hm he ha hred hlt
    have hpf := processField_replace_hidden cc ctx p.1 p.2 attributeId attr
      hm he ha hred hlt
    constructor
    · simp only [applyPrivacy, List.mem_filterMap]
      refine ⟨p, hp, ?_⟩
      rw [hpf]
      simp [getRedactedValue_replace attr hred]
    · exact (mem_applyPrivacy_hiddenFields cc ctx data p.1).2
        ⟨p.2, by simpa using hp, by rw [hpf]⟩

/-- Witness for C1 (amended): the one-field sample record at level 0,
whose field is replace-hidden, so it is kept in the filtered record with
the substituted value and also recorded among the hidden field names. -/
theorem C1_witness :
    (transformEntry "team" [("name", Value.str "Jane Smith")]
      sampleNameCtx).fields.map FieldResult.field = ["name"] ∧
    ("name", Value.str "Staff Member") ∈ (transformEntry "team"
      [("name", Value.str "Jane Smith")] sampleNameCtx).data ∧
    "name" ∈ (transformEntry "team" [("name", Value.str "Jane Smith")]
      sampleNameCtx).hiddenFields :=
  ⟨(C1_coverage "team" [("name", Value.str "Jane Smith")] sampleNameCtx
      { fields := [("name", "ID-01")] } (by decide) (by decide)).2.1,
   ((C1_coverage "team" [("name", Value.str "Jane Smith")] sampleNameCtx
      { fields := [("name", "ID-01")] } (by decide) (by decide)).2.2.2
      ("name", Value.str "Jane Smith") (by decide) "ID-01" nameAttr
      (by decide) (by decide) (by decide) (by decide) (by decide)).1,
   ((C1_coverage "team" [("name", Value.str "Jane Smith")] sampleNameCtx
      { fields := [("name", "ID-01")] } (by decide) (by decide)).2.2.2
      ("name", Value.str "Jane Smith") (by decide) "ID-01" nameAttr
      (by decide) (by decide) (by decide) (by decide) (by decide)).2⟩

/-- C2 counterexample: a field mapped to an id absent from the catalog
produces no entry in the returned warnings (the message goes to the
console only), refuting the claim that the configuration-error warning is
accumulated in the warning data of the returned EntryResult. -/
theorem C2_counterexample :
    (transformEntry "team" [("name", Value.str "Jane")]
      sampleUnknownCtx).warnings = [] ∧
    transformEntryConsole "team" [("name", Value.str "Jane")]
      sampleUnknownCtx = [unresolvedWarning "name" "XX-99"] := by
  constructor
  · decide
  · decide

/-- C2 (amended): a field whose mapping points to an id absent from the
resolved catalog passes through unchanged with visible true and the id
recorded; the configuration-error warning naming the field and the
unresolved id is emitted via console.warn (not accumulated in the
returned warnings, which keep exactly one entry per compliance-hidden
field); the field is never hidden and the build is not failed. -/
theorem C2_unresolved_attribute (collectionName : String)
    (data : List (String × Value)) (ctx : PrivacyContext)
    (cc : CollectionConfig) (f : String) (v : Value) (attributeId : String)
    (h1 : ctx.config.collections.lookup collectionName = some cc)
    (hp : (f, v) ∈ data)
    (h2 : cc.fields.lookup f = some attributeId)
    (h3 : attributeId ≠ "")
    (h4 : ctx.config.attributes.lookup attributeId = none) :
    (f, v) ∈ (transformEntry collectionName data ctx).data ∧
    (∀ fr ∈ (transformEntry collectionName data ctx).fields,
      fr.field = f → fr.visible = true ∧ fr.attributeId = attributeId) ∧
    f ∉ (transformEntry collectionName data ctx).hiddenFields ∧
    unresolvedWarning f attributeId ∈
      transformEntryConsole collectionName data ctx ∧
    (transformEntry collectionName data ctx).warnings.length =
      data.countP (isComplianceHiddenField cc ctx) := by
  have ht : transformEntry collectionName data ctx = applyPrivacy data cc ctx := by
    simp [transformEntry, h1]
  have htc : transformEntryConsole collectionName data ctx =
      applyPrivacyConsole data cc ctx := by
    simp [transformEntryConsole, h1]
  have hpf : ∀ w : Value, processField cc ctx f w =
      { dataEntry := some w
      , fieldResult := { field := f, attributeId := attributeId,
                         visible := true, value := some w,
                         redactionApplied := none }
      , hid := false, warning := none
      , consoleMsg := some (unresolvedWarning f attributeId) } := by
    intro w
    unfold processField
    simp [h2, h3, h4]
  rw [ht, htc]
  refine ⟨?_, ?_, ?_, ?_, applyPrivacy_warnings_length cc ctx data⟩
  · simp only [applyPrivacy, List.mem_filterMap]
    exact ⟨(f, v), hp, by simp [hpf]⟩
  · intro fr hfr hname
    simp only [applyPrivacy, List.mem_map] at hfr
    rcases hfr with ⟨p, _, rfl⟩
    have hf1 : p.1 = f := by
      rw [← hname, processField_fieldName]
    rw [hf1, hpf]
    exact ⟨rfl, rfl⟩
  · intro hmem
    rcases (mem_applyPrivacy_hiddenFields cc ctx data f).1 hmem with ⟨w, _, hh⟩
    rw [hpf] at hh
    cases hh
  · simp only [applyPrivacyConsole, List.mem_filterMap]
    exact ⟨(f, v), hp, by simp [hpf]⟩

/-- Witness for C2 (amended): the unresolved-id sample logs the message
and passes the field through. -/
theorem C2_witness :
    ("name", Value.str "Jane") ∈ (transformEntry "team"
      [("name", Value.str "Jane")] sampleUnknownCtx).data ∧
    unresolvedWarning "name" "XX-99" ∈ transformEntryConsole "team"
      [("name", Value.str "Jane")] sampleUnknownCtx :=
  ⟨(C2_unresolved_attribute "team" [("name", Value.str "Jane")]
      sampleUnknownCtx { fields := [("name", "XX-99")] } "name"
      (Value.str "Jane") "XX-99" (by decide) (by decide) (by decide)
      (by decide) (by decide)).1,
   (C2_unresolved_attribute "team" [("name", Value.str "Jane")]
      sampleUnknownCtx { fields := [("name", "XX-99")] } "name"
      (Value.str "Jane") "XX-99" (by decide) (by decide) (by decide)
      (by decide) (by decide)).2.2.2.1⟩

end ResponsivePrivacy
